import Mathlib

/-!
Verification development for the Joules power-tool plugin
(`hammer/power/joules/__init__.py` and `hammer/power/joules/parsing.py`).

The Python sources are shallowly embedded below:
* string primitives used by the source (`str.replace`, `str.split`,
  `str.strip`, `str.lower`, `os.path.basename`, `os.path.join`, substring
  tests) are re-implemented as structurally recursive functions over
  `List Char`, so that every definition evaluates inside the kernel;
* the `re` patterns of `parsing.py` are embedded as data of a small
  backtracking regular-expression engine with Python match semantics
  (leftmost alternation preference, greedy and lazy quantifiers,
  named-group capture);
* Python `float(...)` values are modelled as exact decimals
  (integer mantissa and power-of-ten exponent); the claims under proof
  only involve decimally-exact values, so IEEE-754 rounding is
  immaterial and abstracted away;
* fallible code paths (`return False`, raised exceptions caught by the
  caller) are modelled with `Except`/`Option`.
-/

set_option maxRecDepth 100000

namespace Joules

/-! ## String primitives (Python semantics, over `List Char`) -/

/-- Python whitespace class `\s` = space, tab, newline, carriage return,
vertical tab, form feed. -/
def pySpaceChar (c : Char) : Bool :=
  c = ' ' || c = '\t' || c = '\n' || c = '\r' || c = '\x0b' || c = '\x0c'

/-- Test whether `p` is a leading segment of `s`. -/
def lcHasPref : List Char → List Char → Bool
  | [], _ => true
  | _ :: _, [] => false
  | p :: ps, c :: cs => p = c && lcHasPref ps cs

/-- Python `needle in haystack` substring test. -/
def lcContains (needle : List Char) : List Char → Bool
  | [] => lcHasPref needle []
  | s@(_ :: rest) => lcHasPref needle s || lcContains needle rest

/-- Python `haystack.count`-style split on a non-empty separator
(`str.split(sep)` semantics); `fuel` bounds the scan and is instantiated
with the input length, which always suffices. -/
def lcSplitAux (sep : List Char) : Nat → List Char → List Char → List (List Char)
  | _, [], acc => [acc.reverse]
  | 0, s, acc => [acc.reverse ++ s]
  | fuel + 1, s@(c :: rest), acc =>
    if lcHasPref sep s then
      acc.reverse :: lcSplitAux sep fuel (s.drop sep.length) []
    else
      lcSplitAux sep fuel rest (c :: acc)

/-- Python `s.split(sep)` for a non-empty separator. -/
def pySplit (s sep : String) : List String :=
  (lcSplitAux sep.toList s.toList.length s.toList []).map String.mk

/-- Python `s.replace(old, new)` for a non-empty `old`, via split/join. -/
def pyReplace (s old new : String) : String :=
  String.mk (((lcSplitAux old.toList s.toList.length s.toList []).intersperse
    new.toList).flatten)

/-- Python `s.strip()`. -/
def pyStrip (s : String) : String :=
  String.mk (((s.toList.dropWhile pySpaceChar).reverse.dropWhile pySpaceChar).reverse)

/-- Python `s.lower()` (ASCII case fold; the inputs of interest are ASCII). -/
def pyLower (s : String) : String :=
  String.mk (s.toList.map Char.toLower)

/-- Python `s.rstrip(chars)` for the single character `%`. -/
def pyRstripPct (s : String) : String :=
  String.mk ((s.toList.reverse.dropWhile (· = '%')).reverse)

/-- Python `s.startswith(p)`. -/
def pyStartsWith (s p : String) : Bool :=
  lcHasPref p.toList s.toList

/-- Python `os.path.basename`: the part after the final slash. -/
def pyBasename (s : String) : String :=
  (pySplit s "/").getLastD ""

/-- Python `os.path.join(a, b)` restricted to the two-argument form used
by the source: an absolute `b` wins, otherwise the parts are joined with
a single slash. -/
def pyPathJoin (a b : String) : String :=
  if pyStartsWith b "/" then b
  else if pyStartsWith a "/" && a.toList.getLastD ' ' = '/' then a ++ b
  else a ++ "/" ++ b

/-- Python `pathlib.PurePath.parent` rendered as a string (enough for the
paths the plugin builds, which always contain a slash). -/
def pyParent (s : String) : String :=
  String.mk (((lcSplitAux "/".toList s.toList.length s.toList []).dropLast.intersperse
    "/".toList).flatten)

/-! ## A small backtracking regex engine with Python semantics

The three `power.rpt` patterns and the PPA pattern of `parsing.py` are
embedded as abstract syntax trees over this engine. Alternation prefers
the left branch, `star` is greedy or lazy as flagged, and named groups
capture the exact consumed characters — matching Python `re` behaviour
for the patterns at hand (whose loop bodies all consume at least one
character, so the fuel bound below is never the limiting factor). -/

inductive RE where
  | eps
  | cls (p : Char → Bool)
  | seq (a b : RE)
  | alt (a b : RE)
  | star (a : RE) (lazy : Bool)
  | group (name : String) (a : RE)

/-- Captured groups: name to consumed characters, most recent first. -/
abbrev Caps := List (String × String)

/-- CPS matcher. `fuel` only bounds the depth of quantifier unfolding;
it is instantiated generously by `reMatch`. -/
def mrun (fuel : Nat) (r : RE) (s : List Char) (c : Caps)
    (k : List Char → Caps → Option Caps) : Option Caps :=
  match fuel, r with
  | _, .eps => k s c
  | _, .cls p =>
    match s with
    | [] => none
    | ch :: rest => if p ch then k rest c else none
  | 0, .seq _ _ => none
  | fuel + 1, .seq a b => mrun fuel a s c (fun s' c' => mrun fuel b s' c' k)
  | 0, .alt _ _ => none
  | fuel + 1, .alt a b => (mrun fuel a s c k) <|> (mrun fuel b s c k)
  | 0, .group _ _ => none
  | fuel + 1, .group n a =>
    mrun fuel a s c (fun s' c' =>
      k s' ((n, String.mk (s.take (s.length - s'.length))) :: c'))
  | 0, .star _ _ => k s c
  | fuel + 1, .star a lz =>
    if lz then
      (k s c) <|> (mrun fuel a s c (fun s' c' => mrun fuel (.star a lz) s' c' k))
    else
      (mrun fuel a s c (fun s' c' => mrun fuel (.star a lz) s' c' k)) <|> (k s c)

/-- Size of a pattern, used to compute a sufficient fuel bound. -/
def reSize : RE → Nat
  | .eps => 1
  | .cls _ => 1
  | .seq a b => reSize a + reSize b + 1
  | .alt a b => reSize a + reSize b + 1
  | .star a _ => reSize a + 1
  | .group _ a => reSize a + 1

/-- Python `pattern.match(line)` for a pattern that is anchored on the
right by `\s*$` (all patterns below are): the whole line must be
consumed. Returns the named captures on success. -/
def reMatch (r : RE) (line : String) : Option Caps :=
  let s := line.toList
  mrun ((s.length + reSize r + 16) * 4) r s []
    (fun rem caps => if rem.isEmpty then some caps else none)

/-- Look up a named group (Python `m.groupdict()[n]`; `none` when the
group did not participate in the match). -/
def capGet (caps : Caps) (n : String) : Option String :=
  (caps.find? (fun p => p.1 == n)).map (·.2)

/-! ## Regex-builder helpers -/

def RE.chr (c : Char) : RE := .cls (· = c)

def RE.strLit (s : String) : RE :=
  s.toList.foldr (fun c acc => .seq (.chr c) acc) .eps

/-- Greedy `+`. -/
def RE.plus (a : RE) : RE := .seq a (.star a false)

/-- Lazy `+?`. -/
def RE.plusLazy (a : RE) : RE := .seq a (.star a true)

/-- Greedy `?`. -/
def RE.opt (a : RE) : RE := .alt a .eps

def wsStar : RE := .star (.cls pySpaceChar) false

def wsPlus : RE := RE.plus (.cls pySpaceChar)

/-! ## Character classes of `parsing.py` -/

/-- Class `[A-Za-z0-9_.\-]` of `ROW_RE`. -/
def catChar (c : Char) : Bool :=
  c.isAlpha || c.isDigit || c = '_' || c = '.' || c = '-'

/-- Class `[0-9.eE+-]` of the power-magnitude groups. -/
def numChar (c : Char) : Bool :=
  c.isDigit || c = '.' || c = 'e' || c = 'E' || c = '+' || c = '-'

/-- Class `[0-9.]` of the percentage groups. -/
def pctChar (c : Char) : Bool :=
  c.isDigit || c = '.'

/-- Class `[|│]` of the optional leading table border. -/
def barChar (c : Char) : Bool :=
  c = '|' || c = '│'

/-- Class of the PPA category group: letters, digits, underscore, dot,
dash, slash, space. -/
def ppaCatChar (c : Char) : Bool :=
  c.isAlpha || c.isDigit || c = '_' || c = '.' || c = '-' || c = '/' || c = ' '

/-- Class `\S`. -/
def nonSpaceChar (c : Char) : Bool :=
  !(pySpaceChar c)

/-- Class `.` (any character except newline). -/
def dotChar (c : Char) : Bool :=
  c ≠ '\n'

/-! ## The embedded patterns -/

/-- Helper: a named group of one-or-more characters of a class, followed
by mandatory whitespace — the repeated shape of `ROW_RE`. -/
def numGroup (n : String) : RE :=
  .seq (.group n (RE.plus (.cls numChar))) wsPlus

/-- Helper: a named percentage group `([0-9.]+%)`. -/
def pctGroup (n : String) : RE :=
  .group n (.seq (RE.plus (.cls pctChar)) (RE.chr '%'))

/-- Embedding of `ROW_RE` (parsing.py lines 13-20). -/
def ROW_RE : RE :=
  .seq wsStar (.seq (RE.opt (.cls barChar)) (.seq wsStar
    (.seq (.group "category" (RE.plus (.cls catChar))) (.seq wsPlus
      (.seq (numGroup "leakage") (.seq (numGroup "internal")
        (.seq (numGroup "switching") (.seq (numGroup "total")
          (.seq (pctGroup "rowpct") wsStar)))))))))

/-- Embedding of `SUBTOTAL_RE` (parsing.py lines 22-29). -/
def SUBTOTAL_RE : RE :=
  .seq wsStar (.seq (RE.strLit "Subtotal") (.seq wsPlus
    (.seq (numGroup "leakage") (.seq (numGroup "internal")
      (.seq (numGroup "switching") (.seq (numGroup "total")
        (.seq (pctGroup "rowpct") wsStar)))))))

/-- Helper: a percentage group followed by mandatory whitespace. -/
def pctGroupWs (n : String) : RE :=
  .seq (pctGroup n) wsPlus

/-- Embedding of `PERCENT_RE` (parsing.py lines 31-38). -/
def PERCENT_RE : RE :=
  .seq wsStar (.seq (RE.strLit "Percentage") (.seq wsPlus
    (.seq (pctGroupWs "leakage") (.seq (pctGroupWs "internal")
      (.seq (pctGroupWs "switching") (.seq (pctGroupWs "total")
        (.seq (pctGroup "rowpct") wsStar)))))))

/-- Embedding of `NUM` = `[0-9]*\.?[0-9]+(?:[eE][+-]?[0-9]+)?`. -/
def NUM_RE : RE :=
  .seq (.star (.cls Char.isDigit) false)
    (.seq (RE.opt (RE.chr '.'))
      (.seq (RE.plus (.cls Char.isDigit))
        (RE.opt (.seq (.cls (fun c => c = 'e' || c = 'E'))
          (.seq (RE.opt (.cls (fun c => c = '+' || c = '-')))
            (RE.plus (.cls Char.isDigit)))))))

/-- Embedding of `NA` = `n/?a|N/?A|-`. -/
def NA_RE : RE :=
  .alt (.seq (RE.chr 'n') (.seq (RE.opt (RE.chr '/')) (RE.chr 'a')))
    (.alt (.seq (RE.chr 'N') (.seq (RE.opt (RE.chr '/')) (RE.chr 'A')))
      (RE.chr '-'))

/-- Embedding of `NUM_OR_NA`. -/
def NUM_OR_NA_RE : RE := .alt NUM_RE NA_RE

/-- Helper: one PPA numeric-or-NA column. -/
def ppaCol (n : String) : RE :=
  .seq (.group n NUM_OR_NA_RE) wsPlus

/-- Embedding of `PPA_ROW_RE` (parsing.py lines 190-201). -/
def PPA_ROW_RE : RE :=
  .seq wsStar
    (.seq (.group "category" (RE.plusLazy (.cls ppaCatChar))) (.seq wsPlus
      (.seq (ppaCol "bits") (.seq (ppaCol "pct_cg")
        (.seq (ppaCol "power_static") (.seq (ppaCol "power_dynamic")
          (.seq (ppaCol "timing_delay") (.seq (ppaCol "timing_slack")
            (.seq (ppaCol "area_cell")
              (.seq (ppaCol "area_routing")
                (.seq (RE.opt (.group "instance_path"
                  (.seq (.cls nonSpaceChar) (.star (.cls dotChar) false))))
                  wsStar)))))))))))

/-! ## Exact-decimal model of Python floats -/

/-- An exact decimal `mantissa * 10 ^ exp10`. Python `float(...)` on the
report tokens of interest produces exactly these values (they are all
decimally exact and well within double precision). -/
structure PyFloat where
  mantissa : Int
  exp10 : Int
deriving DecidableEq, Repr

/-- Value test against an integer: `mantissa * 10 ^ exp10 = n`. -/
def PyFloat.isIntVal (x : PyFloat) (n : Int) : Bool :=
  if 0 ≤ x.exp10 then
    x.mantissa * (10 : Int) ^ x.exp10.toNat = n
  else
    x.mantissa = n * (10 : Int) ^ (-x.exp10).toNat

/-- Digits to a natural number. -/
def digitsToNat (cs : List Char) : Nat :=
  cs.foldl (fun acc c => acc * 10 + (c.toNat - '0'.toNat)) 0

/-- Model of Python `float(s)` on finite decimal literals: optional
sign, digits with at most one point, optional exponent; surrounding
whitespace is tolerated as in CPython. Returns `none` where `float`
raises `ValueError`. -/
def pyFloatOfString (s : String) : Option PyFloat :=
  let cs := (s.toList.dropWhile pySpaceChar).reverse.dropWhile pySpaceChar |>.reverse
  -- split off an exponent part at the first e/E
  let parts := lcSplitAux ['e'] cs.length (cs.map Char.toLower) []
  match parts with
  | [mant] => pyDecOfChars mant 0
  | [mant, expo] =>
    match pyIntOfChars expo with
    | none => none
    | some e => pyDecOfChars mant e
  | _ => none
where
  /-- Parse `[+-]?digits` to an integer. -/
  pyIntOfChars (cs : List Char) : Option Int :=
    let (sgn, ds) : Int × List Char :=
      match cs with
      | '+' :: rest => (1, rest)
      | '-' :: rest => (-1, rest)
      | rest => (1, rest)
    if ds ≠ [] && ds.all Char.isDigit then some (sgn * digitsToNat ds) else none
  /-- Parse `[+-]?digits[.digits]` applying an exponent shift. -/
  pyDecOfChars (cs : List Char) (e : Int) : Option PyFloat :=
    let (sgn, ds) : Int × List Char :=
      match cs with
      | '+' :: rest => (1, rest)
      | '-' :: rest => (-1, rest)
      | rest => (1, rest)
    match lcSplitAux ['.'] ds.length ds [] with
    | [intPart] =>
      if intPart ≠ [] && intPart.all Char.isDigit then
        some ⟨sgn * digitsToNat intPart, e⟩
      else none
    | [intPart, fracPart] =>
      if (intPart ++ fracPart) ≠ [] && intPart.all Char.isDigit
          && fracPart.all Char.isDigit then
        some ⟨sgn * digitsToNat (intPart ++ fracPart), e - fracPart.length⟩
      else none
    | _ => none

/-! ## Flat power-table parser (`parse_table`, parsing.py lines 40-83) -/

/-- One per-category row of the flat power report. -/
structure PowerRow where
  category : String
  leakage : PyFloat
  internal : PyFloat
  switching : PyFloat
  total : PyFloat
  row_pct : PyFloat
deriving DecidableEq, Repr

/-- The numeric payload of a Subtotal or Percentage row. -/
structure StatRow where
  leakage : PyFloat
  internal : PyFloat
  switching : PyFloat
  total : PyFloat
  row_pct : PyFloat
deriving DecidableEq, Repr

/-- Result of `parse_table`. -/
structure FlatTable where
  rows : List PowerRow
  subtotal : Option StatRow
  percentage : Option StatRow
deriving DecidableEq, Repr

/-- Fetch a group and feed it to `float(...)`. -/
def capFloat (d : Caps) (n : String) : Option PyFloat :=
  (capGet d n).bind pyFloatOfString

/-- Fetch a group, strip a trailing `%`, and feed it to `float(...)`
(the `float(x.rstrip("%"))` idiom of the source). -/
def capPctFloat (d : Caps) (n : String) : Option PyFloat :=
  (capGet d n).bind (fun s => pyFloatOfString (pyRstripPct s))

/-- One iteration of the `parse_table` loop. Patterns are tried in source
order: `ROW_RE` first, then `SUBTOTAL_RE`, then `PERCENT_RE`; a line
matching none of them is skipped. `none` models an escaped `ValueError`
from `float(...)`, which cannot happen on matched groups of well-formed
numbers. -/
def parse_table_step (st : FlatTable) (ln : String) : Option FlatTable :=
  match reMatch ROW_RE ln with
  | some d => do
    let c ← capGet d "category"
    let lk ← capFloat d "leakage"
    let itl ← capFloat d "internal"
    let sw ← capFloat d "switching"
    let tot ← capFloat d "total"
    let rp ← capPctFloat d "rowpct"
    pure { st with rows := st.rows ++
      [{ category := pyStrip c, leakage := lk, internal := itl,
         switching := sw, total := tot, row_pct := rp }] }
  | none =>
  match reMatch SUBTOTAL_RE ln with
  | some d => do
    let lk ← capFloat d "leakage"
    let itl ← capFloat d "internal"
    let sw ← capFloat d "switching"
    let tot ← capFloat d "total"
    let rp ← capPctFloat d "rowpct"
    let v : StatRow :=
      { leakage := lk, internal := itl, switching := sw, total := tot,
        row_pct := rp }
    pure { st with subtotal := some v }
  | none =>
  match reMatch PERCENT_RE ln with
  | some d => do
    let lk ← capPctFloat d "leakage"
    let itl ← capPctFloat d "internal"
    let sw ← capPctFloat d "switching"
    let tot ← capPctFloat d "total"
    let rp ← capPctFloat d "rowpct"
    let v : StatRow :=
      { leakage := lk, internal := itl, switching := sw, total := tot,
        row_pct := rp }
    pure { st with percentage := some v }
  | none => pure st

/-- Embedding of `parse_table` (parsing.py lines 40-83). -/
def parse_table (lines : List String) : Option FlatTable :=
  lines.foldlM parse_table_step { rows := [], subtotal := none, percentage := none }

/-! ## PPA table parser (`parse_ppa_table`, parsing.py lines 186-239) -/

/-- One parsed PPA row. -/
structure PpaRow where
  category : String
  bits : Option PyFloat
  pct_cg : Option PyFloat
  power_static : Option PyFloat
  power_dynamic : Option PyFloat
  timing_delay : Option PyFloat
  timing_slack : Option PyFloat
  area_cell : Option PyFloat
  area_routing : Option PyFloat
  instance_path : Option String
deriving DecidableEq, Repr

/-- Characters allowed on a header/separator line (parsing.py line 218). -/
def sepChar (c : Char) : Bool :=
  c = '=' || c = '-' || c = '─' || c = ' ' || c = '|' || c = '│'

/-- Test for a rule/separator line: every character of the stripped line
is a rule character (an empty stripped line passes, as in the source
subset test). -/
def isSepLine (ln : String) : Bool :=
  (pyStrip ln).toList.all sepChar

/-- Embedding of `_num_or_none` (parsing.py lines 203-212): not-available
markers and unparseable text map to `none`, numbers to their value. -/
def num_or_none (x : Option String) : Option PyFloat :=
  match x with
  | none => none
  | some s0 =>
    let s := pyStrip s0
    if s = "" || pyLower s ∈ (["n/a", "na", "-", "n\\a"] : List String) then none
    else pyFloatOfString s

/-- One iteration of the `parse_ppa_table` loop: skip separator lines,
skip non-matching lines, skip header rows whose category starts with
`category` (case-insensitive), otherwise build the row record. -/
def parse_ppa_line (ln : String) : Option PpaRow :=
  if isSepLine ln then none
  else
    match reMatch PPA_ROW_RE ln with
    | none => none
    | some d =>
      match capGet d "category" with
      | none => none
      | some c0 =>
        let category := pyStrip c0
        if pyStartsWith (pyLower category) "category" then none
        else some
          { category := category,
            bits := num_or_none (capGet d "bits"),
            pct_cg := num_or_none (capGet d "pct_cg"),
            power_static := num_or_none (capGet d "power_static"),
            power_dynamic := num_or_none (capGet d "power_dynamic"),
            timing_delay := num_or_none (capGet d "timing_delay"),
            timing_slack := num_or_none (capGet d "timing_slack"),
            area_cell := num_or_none (capGet d "area_cell"),
            area_routing := num_or_none (capGet d "area_routing"),
            instance_path :=
              let ip := pyStrip ((capGet d "instance_path").getD "")
              if ip = "" then none else some ip }

/-- Embedding of `parse_ppa_table` (parsing.py lines 214-239). -/
def parse_ppa_table (lines : List String) : List PpaRow :=
  lines.filterMap parse_ppa_line

/-! ## CLI dispatch (`main`, parsing.py lines 272-294) -/

/-- The three table parsers the CLI can dispatch to. -/
inductive ReportKind where
  | ppa
  | hier
  | flat
deriving DecidableEq, Repr

/-- Python `needle in haystack` on strings. -/
def strContainsB (needle s : String) : Bool :=
  lcContains needle.toList s.toList

/-- Embedding of the parser selection in `main`: the source path is
lowercased, `is_ppa = "ppa" in lsrc` is tested before
`is_hier = "hier" in lsrc`, and everything else falls through to the
flat parser. -/
def main_select (src : String) : ReportKind :=
  let lsrc := pyLower src
  if strContainsB "ppa" lsrc then .ppa
  else if strContainsB "hier" lsrc then .hier
  else .flat

/-! ## Profile unit normalization (spec-modelled)

`__init__.py` line 24 imports `PowerParser` from `.parsing` and
`parse_power` calls `PowerParser.profiledata_to_df`, but `parsing.py` in
the sources under review does not define `PowerParser`: the class body is
missing from the repository snapshot. The unit-normalization core of
`profiledata_to_df` is therefore modelled from the specification. -/

/-- Product of two exact decimals. -/
def PyFloat.mul (a b : PyFloat) : PyFloat :=
  ⟨a.mantissa * b.mantissa, a.exp10 + b.exp10⟩

/-- Round an exact decimal to the nearest integer, halves away from zero
(the spec fixes this rounding for the canonical time axis). -/
def PyFloat.roundHalfAwayToInt (x : PyFloat) : Int :=
  if 0 ≤ x.exp10 then
    x.mantissa * (10 : Int) ^ x.exp10.toNat
  else
    let d := (10 : Nat) ^ (-x.exp10).toNat
    let q : Int := (2 * x.mantissa.natAbs + d) / (2 * d)
    if 0 ≤ x.mantissa then q else -q

/-- Modelled from the spec: the factor converting one declared time unit
to the canonical nanosecond axis, computed from a one-unit reference
value as the spec describes. -/
def time_unit_factor_ns (u : String) : Option PyFloat :=
  if u = "s" then some ⟨1, 9⟩
  else if u = "ms" then some ⟨1, 6⟩
  else if u = "us" then some ⟨1, 3⟩
  else if u = "ns" then some ⟨1, 0⟩
  else if u = "ps" then some ⟨1, -3⟩
  else if u = "fs" then some ⟨1, -6⟩
  else none

/-- Modelled from the spec: the factor converting one declared power unit
to the canonical milliwatt axis. -/
def power_unit_factor_mw (u : String) : Option PyFloat :=
  if u = "kW" then some ⟨1, 6⟩
  else if u = "W" then some ⟨1, 3⟩
  else if u = "mW" then some ⟨1, 0⟩
  else if u = "uW" then some ⟨1, -3⟩
  else if u = "nW" then some ⟨1, -6⟩
  else none

/-- Modelled from the spec: rescale a power datum from the header-declared
unit to canonical milliwatts (`PowerParser.profiledata_to_df`). -/
def profile_power_to_mw (unit : String) (v : PyFloat) : Option PyFloat :=
  (power_unit_factor_mw unit).map (fun f => PyFloat.mul v f)

/-- Modelled from the spec: rescale a time datum from the header-declared
unit to canonical nanoseconds, rounding to the nearest integer
nanosecond (`PowerParser.profiledata_to_df`). -/
def profile_time_to_ns (unit : String) (t : PyFloat) : Option Int :=
  (time_unit_factor_ns unit).map (fun f => (PyFloat.mul t f).roundHalfAwayToInt)

/-! ## Command synthesizer (`Joules` class, `__init__.py`)

The stimulus registry `all_stim_cmds` is passed explicitly; tool settings
reachable through `self` are collected in `JoulesCtx`. Optional numeric
fields carry Python truthiness: an `int` field is truthy when present and
non-zero, a `TimeValue` object is truthy exactly when present, a string
is truthy when present and non-empty. -/

/-- The slice of tool state `configs_to_cmds` reads from `self`. -/
structure JoulesCtx where
  cwd : String
  run_dir : String
  tb_name : String
  tb_dut : String
  clock_ports : List String
deriving DecidableEq, Repr

/-- Embedding of the `PowerReport` request record. `start_time`,
`end_time` and `interval_size` are `TimeValue` objects, carried as their
integral value in nanoseconds (the source renders
`value_in_units("ns")`; fractional values do not affect any claim). -/
structure PowerReport where
  waveform_path : String
  inst : Option String
  module : Option String
  levels : Option Int
  start_time : Option Int
  end_time : Option Int
  interval_list : Option String
  interval_size : Option Int
  toggle_signal : Option String
  num_toggles : Option Int
  frame_count : Option Int
  power_type : Option String
  report_stem : Option String
  output_formats : Option (List String)
  tcl_cmd : Option String
  tcl_args : Option String
deriving DecidableEq, Repr

/-- The default request built for each waveform/SAIF input
(lines 244-259): everything unset except `output_formats = ["report"]`. -/
def default_power_report (sim_file : String) : PowerReport :=
  { waveform_path := sim_file,
    inst := none, module := none, levels := none,
    start_time := none, end_time := none,
    interval_list := none, interval_size := none,
    toggle_signal := none, num_toggles := none,
    frame_count := none,
    power_type := none, report_stem := none,
    output_formats := some ["report"],
    tcl_cmd := none, tcl_args := none }

/-- Python truthiness of an optional `int`. -/
def truthyInt (x : Option Int) : Bool :=
  match x with
  | none => false
  | some v => v ≠ 0

/-- Python truthiness of an optional `str`. -/
def truthyStr (x : Option String) : Bool :=
  match x with
  | none => false
  | some s => s ≠ ""

/-- The per-request output of the synthesizer (the dict `cfg`). -/
structure CommandConfig where
  read_stim_cmd : String
  compute_power_cmd : Option String
  report_cmds : List String
deriving DecidableEq, Repr

/-- Embedding of `generate_alias` (lines 223-236): first-occurrence
lookup index, matching Python `list.index`. -/
def pyListIndex (c : String) : List String → Nat
  | [] => 0
  | x :: xs => if x = c then 0 else pyListIndex c xs + 1

/-- Embedding of `Joules.generate_alias` (lines 223-236). Returns the
alias string, the `new_stim` flag, and the updated `all_stim_cmds`
registry. -/
def generate_alias (all_stim_cmds : List String) (read_stim_cmd : String) :
    (String × Bool) × List String :=
  if read_stim_cmd ∈ all_stim_cmds then
    (("stim" ++ toString (pyListIndex read_stim_cmd all_stim_cmds), false),
      all_stim_cmds)
  else
    (("stim" ++ toString all_stim_cmds.length, true),
      all_stim_cmds ++ [read_stim_cmd])

/-- The base of the stimulus-load command: file, DUT instance, and the
optional `-start` / `-end` window (lines 265-271). -/
def read_stim_pre (ctx : JoulesCtx) (r : PowerReport) : String :=
  let tb_dut := pyReplace ctx.tb_dut "." "/"
  let abspath := pyPathJoin ctx.cwd r.waveform_path
  let base := "read_stimulus -file " ++ abspath ++ " -dut_instance "
    ++ ctx.tb_name ++ "/" ++ tb_dut
  let base :=
    match r.start_time with
    | some t => base ++ " -start " ++ toString t ++ "ns"
    | none => base
  match r.end_time with
  | some t => base ++ " -end " ++ toString t ++ "ns"
  | none => base

/-- The `is not None` flags of the four segmentation fields, in source
order (line 274-275). -/
def time_based_flags (r : PowerReport) : List Bool :=
  [r.interval_size.isSome, r.interval_list.isSome,
   r.num_toggles.isSome, r.frame_count.isSome]

/-- Embedding of `time_based_analysis = any(...)` (line 276). -/
def time_based_analysis (r : PowerReport) : Bool :=
  r.interval_size.isSome || r.interval_list.isSome
    || r.num_toggles.isSome || r.frame_count.isSome

/-- The segmentation clause appended to the load command: the
`if/elif` chain of lines 280-291, which tests Python truthiness (not
`is not None`). -/
def seg_clause (ctx : JoulesCtx) (r : PowerReport) : String :=
  if r.interval_size.isSome then
    " -interval_size " ++ toString (r.interval_size.getD 0) ++ "ns"
  else if truthyStr r.interval_list then
    " -interval_list " ++ r.interval_list.getD ""
  else if truthyInt r.num_toggles then
    let toggle_signal := r.toggle_signal.getD (ctx.clock_ports.getD 0 "")
    " -cycles " ++ toString (r.num_toggles.getD 0) ++ " " ++ toggle_signal
  else if truthyInt r.frame_count then
    " -frame_count " ++ toString (r.frame_count.getD 0)
  else ""

/-- The fully rendered stimulus-load command string — the dedup key fed
to `generate_alias` (lines 266-294). -/
def read_stim_cmd_of (ctx : JoulesCtx) (r : PowerReport) : String :=
  read_stim_pre ctx r ++ seg_clause ctx r

/-- Warning text of line 278. -/
def multiTimeBasedWarning : String :=
  "More than one time-based analysis specified, using first one in \x7binterval_size, interval_list, toggle_signal/num_toggles, frame_count\x7d"

/-- Warning text of line 288. -/
def toggleDefaultWarning (sig : String) : String :=
  "Unspecified toggle_signal for num_toggles, using " ++ sig ++ " signal"

/-- The `logger.warning` calls a request provokes, in emission order
(lines 277-278 and 286-288). -/
def report_warnings (ctx : JoulesCtx) (r : PowerReport) : List String :=
  (if 1 < (time_based_flags r).count true then [multiTimeBasedWarning] else [])
    ++
  (if !r.interval_size.isSome && !(truthyStr r.interval_list)
      && truthyInt r.num_toggles && r.toggle_signal.isNone then
    [toggleDefaultWarning (ctx.clock_ports.getD 0 "")]
  else [])

/-- Error text of line 341. -/
def plotProfileError : String :=
  "Must specify either interval_size or toggle_signal+num_toggles in power.inputs.report_configs to generate plot_profile report (frame-based analysis)."

/-- Error text of line 347. -/
def writeProfileError : String :=
  "Must specify either interval_size or toggle_signal+num_toggles in power.inputs.report_configs to generate write_profile report (frame-based analysis)."

/-- The resolved output stem (lines 312-317): the waveform basename when
unset, made absolute under `run_dir/reports` unless already absolute. -/
def report_stem_of (ctx : JoulesCtx) (r : PowerReport) : String :=
  let stem :=
    match r.report_stem with
    | none => pyBasename r.waveform_path
    | some s => s
  if pyStartsWith stem "/" then stem
  else ctx.run_dir ++ "/reports/" ++ stem

/-- The effective output-format set (lines 306-309), as the list whose
membership is queried. -/
def output_formats_of (r : PowerReport) : List String :=
  match r.output_formats with
  | none => if r.tcl_args.isNone then ["report"] else []
  | some l => l

/-- The set test of line 339: `{"plot_profile", "profile", "all"}`
intersects the output formats. -/
def plot_profile_family (r : PowerReport) : Prop :=
  "plot_profile" ∈ output_formats_of r ∨ "profile" ∈ output_formats_of r
    ∨ "all" ∈ output_formats_of r

instance (r : PowerReport) : Decidable (plot_profile_family r) := by
  unfold plot_profile_family; infer_instance

/-- The set test of line 345: `{"write_profile", "profile", "all"}`
intersects the output formats. -/
def write_profile_family (r : PowerReport) : Prop :=
  "write_profile" ∈ output_formats_of r ∨ "profile" ∈ output_formats_of r
    ∨ "all" ∈ output_formats_of r

instance (r : PowerReport) : Decidable (write_profile_family r) := by
  unfold write_profile_family; infer_instance

/-- Embedding of the body of the `configs_to_cmds` loop for a single
request (lines 262-356). Returns the config, the warnings, and the
updated stimulus registry, or the `logger.error` message where the
source does `return False`. -/
def build_report_cfg (ctx : JoulesCtx) (reg : List String) (r : PowerReport) :
    Except String (CommandConfig × List String × List String) :=
  let rsc := read_stim_cmd_of ctx r
  let ar := generate_alias reg rsc
  let stim_alias := ar.1.1
  let new_stim := ar.1.2
  let reg' := ar.2
  let tba := time_based_analysis r
  let load :=
    if new_stim then rsc ++ " -alias " ++ stim_alias ++ " -append" else ""
  let compute :=
    if new_stim then
      some ("compute_power -mode " ++ (if tba then "time_based" else "average")
        ++ " -stim " ++ stim_alias ++ " -append")
    else none
  let inst_str := match r.inst with | some i => "-inst " ++ i | none => ""
  let module_str := match r.module with | some m => "-module " ++ m | none => ""
  let levels_str := match r.levels with | some l => "-levels " ++ toString l | none => ""
  let type_str := match r.power_type with
    | some t => "-types " ++ t
    | none => "-types total"
  let fmts := output_formats_of r
  let tcl_args := r.tcl_args.getD ""
  let stem := report_stem_of ctx r
  let load := load ++ "\ndump_frame_info " ++ stim_alias ++ " " ++ stem
  let base_cmds :=
    (if "report" ∈ fmts ∨ "all" ∈ fmts then
      let h_levels_str := if levels_str = "" then "-levels all" else levels_str
      ["report_power -stims " ++ stim_alias ++ " " ++ inst_str ++ " "
        ++ module_str ++ " " ++ levels_str ++ " -unit mW " ++ tcl_args
        ++ " -out " ++ stem ++ ".power.rpt",
       "report_power -stims " ++ stim_alias ++ " " ++ inst_str ++ " "
        ++ module_str ++ " " ++ levels_str ++ " -by_hierarchy " ++ h_levels_str
        ++ " -unit mW " ++ tcl_args ++ " -out " ++ stem ++ ".hier.power.rpt"]
    else [])
    ++
    (if "activity" ∈ fmts ∨ "all" ∈ fmts then
      ["report_activity -stims " ++ stim_alias ++ " " ++ inst_str ++ " "
        ++ module_str ++ " " ++ levels_str ++ " " ++ tcl_args
        ++ " -out " ++ stem ++ ".activity.rpt",
       "report_activity -stims " ++ stim_alias ++ " -by_hierarchy "
        ++ levels_str ++ " " ++ tcl_args ++ " -out " ++ stem
        ++ ".hier.activity.rpt"]
    else [])
    ++
    (if "ppa" ∈ fmts ∨ "all" ∈ fmts then
      ["report_ppa " ++ pyReplace inst_str "-inst" "-root" ++ " " ++ module_str
        ++ " " ++ tcl_args ++ " > " ++ stem ++ ".ppa.rpt"]
    else [])
    ++
    (if "area" ∈ fmts ∨ "all" ∈ fmts then
      ["report_area > " ++ stem ++ ".area.rpt"]
    else [])
  if plot_profile_family r ∧ tba = false then .error plotProfileError
  else if write_profile_family r ∧ tba = false then .error writeProfileError
  else
    let cmds := base_cmds
      ++ (if plot_profile_family r then
        ["plot_power_profile -stims " ++ stim_alias ++ " " ++ inst_str ++ " "
          ++ module_str ++ " " ++ levels_str
          ++ " -by_category \x7btotal\x7d " ++ type_str
          ++ " -unit mW -format png " ++ tcl_args ++ " -out " ++ stem
          ++ ".profile.png"]
      else [])
      ++ (if write_profile_family r then
        ["write_power_profile -stims " ++ stim_alias ++ " "
          ++ pyReplace inst_str "-inst" "-root" ++ " " ++ levels_str
          ++ " -unit mW -format fsdb " ++ tcl_args ++ " -out " ++ stem
          ++ ".profile"]
      else [])
      ++ (match r.tcl_cmd with
        | some t => [t ++ " -stims " ++ stim_alias ++ " " ++ tcl_args]
        | none => [])
    .ok ({ read_stim_cmd := load, compute_power_cmd := compute,
           report_cmds := cmds },
         report_warnings ctx r, reg')

/-- The `configs_to_cmds` loop over a request list, threading the
stimulus registry; the `return False` of the source propagates as
`.error`, discarding every sibling result. Returns the config list and
the final registry. -/
def configs_to_cmds_go (ctx : JoulesCtx) (reg : List String) :
    List PowerReport → Except String (List CommandConfig × List String)
  | [] => .ok ([], reg)
  | r :: rs =>
    match build_report_cfg ctx reg r with
    | .error e => .error e
    | .ok (cfg, _, reg') =>
      match configs_to_cmds_go ctx reg' rs with
      | .error e => .error e
      | .ok (cfgs, regF) => .ok (cfg :: cfgs, regF)

/-- Embedding of `Joules.configs_to_cmds` (lines 239-359) applied to the
already-assembled request list (per-waveform defaults followed by the
user-declared requests), starting from an empty stimulus registry. -/
def configs_to_cmds (ctx : JoulesCtx) (reports : List PowerReport) :
    Except String (List CommandConfig) :=
  match configs_to_cmds_go ctx [] reports with
  | .error e => .error e
  | .ok (cfgs, _) => .ok cfgs

/-! ## Batch report parsing (`Joules.parse_power`, lines 392-425)

The Pandas data frame and the CSV export are abstracted behind an oracle
`parseExport : String → Except String Unit` standing for
`PowerParser.profiledata_to_df` followed by `df.to_csv` (the claim under
proof quantifies over its success/failure behaviour), and the filesystem
behind an existence oracle. -/

/-- Observable per-file events of the `parse_power` loop. -/
inductive ParseEvent where
  | warnMissing (fp : String)
  | warnNoParser (fp : String)
  | parsed (fp_in fp_out : String)
  | errorLogged (fp : String) (msg : String)
deriving DecidableEq, Repr

/-- Extraction of the output path from a report command: the source
convention `cmd.split(" -out ")[-1].split(" > ")[-1]` (line 399),
guarded by the `continue` of line 398. -/
def out_path_of_cmd (cmd : String) : Option String :=
  if !(strContainsB " -out " cmd) && !(strContainsB " > " cmd) then none
  else some ((pySplit ((pySplit cmd " -out ").getLastD "") " > ").getLastD "")

/-- Processing of one report command by `parse_power` (lines 397-423):
locate the output file, skip with a warning when absent, dispatch to the
profile parser when the filename contains `.profile` (appending the
`.data` suffix), warn on unrecognized kinds, and convert a raised
exception into a logged error. -/
def parse_power_cmd (run_dir : String) (exists_fp : String → Bool)
    (parseExport : String → Except String Unit) (cmd : String) :
    List ParseEvent :=
  match out_path_of_cmd cmd with
  | none => []
  | some fp0 =>
    let fp := if pyStartsWith fp0 "/" then fp0 else run_dir ++ "/" ++ fp0
    let profile := strContainsB ".profile" (pyBasename fp)
    let fp_in := if profile then fp ++ ".data" else fp
    if !exists_fp fp_in then [.warnMissing fp_in]
    else if !profile then [.warnNoParser fp_in]
    else
      match parseExport fp_in with
      | .ok _ =>
        [.parsed fp_in (pyParent fp_in ++ "/parsed/" ++ pyBasename fp_in
          ++ ".csv.gz")]
      | .error e => [.errorLogged fp_in e]

/-- Embedding of the `parse_power` loop body over the report commands of
the built configs; the method always returns `True` (line 425). -/
def parse_power (run_dir : String) (exists_fp : String → Bool)
    (parseExport : String → Except String Unit) (cfgs : List CommandConfig) :
    List ParseEvent × Bool :=
  ((cfgs.map (fun cfg => cfg.report_cmds.map
      (parse_power_cmd run_dir exists_fp parseExport))).flatten.flatten, true)

/-! ## Derived views of the builder output, used to state the claims -/

/-- The alias `generate_alias` assigns to a request's load command. -/
def stim_alias_of (ctx : JoulesCtx) (reg : List String) (r : PowerReport) : String :=
  (generate_alias reg (read_stim_cmd_of ctx r)).1.1

/-- The `new_stim` flag of a request against a registry. -/
def new_stim_of (ctx : JoulesCtx) (reg : List String) (r : PowerReport) : Bool :=
  (generate_alias reg (read_stim_cmd_of ctx r)).1.2

/-- The `cfg["read_stim_cmd"]` field the builder produces: the load
command when the stimulus is new, nothing otherwise — and the
`dump_frame_info` line in either case (lines 295-297 and 324). -/
def load_cmd_of (ctx : JoulesCtx) (reg : List String) (r : PowerReport) : String :=
  (if new_stim_of ctx reg r then
    read_stim_cmd_of ctx r ++ " -alias " ++ stim_alias_of ctx reg r ++ " -append"
  else "")
    ++ "\ndump_frame_info " ++ stim_alias_of ctx reg r ++ " "
    ++ report_stem_of ctx r

/-- The `cfg["compute_power_cmd"]` field the builder produces
(lines 296-300). -/
def compute_cmd_of (ctx : JoulesCtx) (reg : List String) (r : PowerReport) :
    Option String :=
  if new_stim_of ctx reg r then
    some ("compute_power -mode "
      ++ (if time_based_analysis r then "time_based" else "average")
      ++ " -stim " ++ stim_alias_of ctx reg r ++ " -append")
  else none

/-- Run `generate_alias` over a batch of already-rendered load commands,
recording `(command, alias, new_stim)` per request. -/
def run_generate_aliases (reg : List String) :
    List String → List (String × String × Bool)
  | [] => []
  | c :: cs =>
    (c, (generate_alias reg c).1) ::
      run_generate_aliases (generate_alias reg c).2 cs

/-- The registry left after a batch of `generate_alias` calls. -/
def register_all (reg : List String) : List String → List String
  | [] => reg
  | c :: cs => register_all (generate_alias reg c).2 cs

/-- Predicate for counting: the entry registered command `s` anew
(so its load/compute pair was emitted). -/
def isNewFor (s : String) (e : String × String × Bool) : Bool :=
  (e.1 == s) && e.2.2

/-! ## Concrete fixtures used by witnesses and counterexamples -/

/-- A small tool context. -/
def ctx0 : JoulesCtx :=
  { cwd := "/work", run_dir := "/work/run", tb_name := "tb",
    tb_dut := "tb.dut", clock_ports := ["clk"] }

/-- A plain report-format request. -/
def rBase : PowerReport := default_power_report "waves/a.vcd"

/-- A profile request with no time-segmentation field. -/
def rProf : PowerReport := { rBase with output_formats := some ["profile"] }

/-- A request with both `interval_size` and `num_toggles` set. -/
def rIv : PowerReport :=
  { rBase with interval_size := some 5, num_toggles := some 3 }

/-- A profile request whose only segmentation field is the falsy
`frame_count = 0`. -/
def rFz : PowerReport :=
  { rBase with frame_count := some 0, output_formats := some ["profile"] }

/-- A request with both `num_toggles` and `frame_count` set (non-None)
and `num_toggles` truthy. -/
def rTg : PowerReport :=
  { rBase with num_toggles := some 3, frame_count := some 7 }

/-- A request with both `num_toggles` and `frame_count` set (non-None)
but `num_toggles = 0` falsy: the first set field in priority order is
`num_toggles`, yet the truthiness-tested clause chain skips it. -/
def rTf : PowerReport :=
  { rBase with num_toggles := some 0, frame_count := some 5 }

/-- The synthetic flat power report of the round-trip claim: one
category row, one Subtotal row, one Percentage row (with the trailing
newlines `readlines` keeps). -/
def c3_lines : List String :=
  ["top 1.0 2.0 3.0 6.0 50.0%\n",
   "Subtotal      1.0 2.0 3.0 6.0 50.0%\n",
   "Percentage 10.0% 20.0% 30.0% 60.0% 100.0%\n"]

/-- What the embedded `parse_table` actually returns on `c3_lines`: the
Subtotal line is consumed by `ROW_RE` (whose category class matches the
word `Subtotal`) before `SUBTOTAL_RE` is ever tried, so it lands in
`rows` and `subtotal` stays `none`. -/
def c3_result : FlatTable :=
  { rows :=
      [{ category := "top",
         leakage := ⟨10, -1⟩, internal := ⟨20, -1⟩, switching := ⟨30, -1⟩,
         total := ⟨60, -1⟩, row_pct := ⟨500, -1⟩ },
       { category := "Subtotal",
         leakage := ⟨10, -1⟩, internal := ⟨20, -1⟩, switching := ⟨30, -1⟩,
         total := ⟨60, -1⟩, row_pct := ⟨500, -1⟩ }],
    subtotal := none,
    percentage := some
      { leakage := ⟨100, -1⟩, internal := ⟨200, -1⟩, switching := ⟨300, -1⟩,
        total := ⟨600, -1⟩, row_pct := ⟨1000, -1⟩ } }

/-- A synthetic PPA report: a header row that matches the row pattern, a
separator, a row with `bits = n/a`, and a row with `bits = 0`. -/
def c5_lines : List String :=
  ["Category 0 1 2 3 4 5 6 7 path\n",
   "---------------------------------\n",
   "regs n/a 1 2 3 4 5 6 7 /x/y\n",
   "regs2 0 1 2 3 4 5 6 7 /y\n"]

/-- The `bits = n/a` row record. -/
def c5_row_na : PpaRow :=
  { category := "regs",
    bits := none,
    pct_cg := some ⟨1, 0⟩, power_static := some ⟨2, 0⟩,
    power_dynamic := some ⟨3, 0⟩, timing_delay := some ⟨4, 0⟩,
    timing_slack := some ⟨5, 0⟩, area_cell := some ⟨6, 0⟩,
    area_routing := some ⟨7, 0⟩, instance_path := some "/x/y" }

/-- The `bits = 0` row record. -/
def c5_row_zero : PpaRow :=
  { category := "regs2",
    bits := some ⟨0, 0⟩,
    pct_cg := some ⟨1, 0⟩, power_static := some ⟨2, 0⟩,
    power_dynamic := some ⟨3, 0⟩, timing_delay := some ⟨4, 0⟩,
    timing_slack := some ⟨5, 0⟩, area_cell := some ⟨6, 0⟩,
    area_routing := some ⟨7, 0⟩, instance_path := some "/y" }

/-- The captures the embedded PPA pattern produces on the header line of
`c5_lines`, with category `Category`. -/
def c5_hdr_caps : Caps :=
  [("instance_path", "path"), ("area_routing", "7"), ("area_cell", "6"),
   ("timing_slack", "5"), ("timing_delay", "4"), ("power_dynamic", "3"),
   ("power_static", "2"), ("pct_cg", "1"), ("bits", "0"),
   ("category", "Category")]

/-- A parse/export oracle that fails exactly on the second profile data
file — the "second report file is malformed" scenario. -/
def c8_oracle (fp : String) : Except String Unit :=
  if fp = "/r/b.profile.data" then .error "malformed report" else .ok ()

/-- A config whose report commands name three profile outputs. -/
def c8_cfg : CommandConfig :=
  { read_stim_cmd := "",
    compute_power_cmd := none,
    report_cmds :=
      ["write_power_profile -stims stim0 -out /r/a.profile",
       "write_power_profile -stims stim0 -out /r/b.profile",
       "write_power_profile -stims stim0 -out /r/c.profile"] }

/-! ## Shared lemmas about the stimulus registry -/

lemma generate_alias_mem (reg : List String) (c : String) (h : c ∈ reg) :
    generate_alias reg c =
      (("stim" ++ toString (pyListIndex c reg), false), reg) := by
  simp [generate_alias, h]

lemma generate_alias_not_mem (reg : List String) (c : String) (h : c ∉ reg) :
    generate_alias reg c =
      (("stim" ++ toString reg.length, true), reg ++ [c]) := by
  simp [generate_alias, h]

lemma pyListIndex_append_of_mem (reg t : List String) (c : String)
    (h : c ∈ reg) : pyListIndex c (reg ++ t) = pyListIndex c reg := by
  induction reg with
  | nil => simp at h
  | cons x xs ih =>
    by_cases hx : x = c
    · simp [pyListIndex, hx]
    · have hm : c ∈ xs := by
        rcases List.mem_cons.mp h with h1 | h2
        · exact absurd h1.symm hx
        · exact h2
      simp [pyListIndex, hx, ih hm]

lemma pyListIndex_self_append (reg : List String) (c : String)
    (h : c ∉ reg) : pyListIndex c (reg ++ [c]) = reg.length := by
  induction reg with
  | nil => simp [pyListIndex]
  | cons x xs ih =>
    have hx : x ≠ c := by
      intro e; exact h (e ▸ List.mem_cons_self x xs)
    have hm : c ∉ xs := fun hc => h (List.mem_cons_of_mem _ hc)
    simp [pyListIndex, hx, ih hm]

lemma register_all_extends (cs : List String) :
    ∀ reg, ∃ t, register_all reg cs = reg ++ t := by
  induction cs with
  | nil => intro reg; exact ⟨[], by simp [register_all]⟩
  | cons c cs ih =>
    intro reg
    by_cases h : c ∈ reg
    · obtain ⟨t, ht⟩ := ih reg
      refine ⟨t, ?_⟩
      calc register_all reg (c :: cs)
          = register_all (generate_alias reg c).2 cs := rfl
        _ = register_all reg cs := by rw [generate_alias_mem reg c h]
        _ = reg ++ t := ht
    · obtain ⟨t, ht⟩ := ih (reg ++ [c])
      refine ⟨[c] ++ t, ?_⟩
      calc register_all reg (c :: cs)
          = register_all (generate_alias reg c).2 cs := rfl
        _ = register_all (reg ++ [c]) cs := by rw [generate_alias_not_mem reg c h]
        _ = (reg ++ [c]) ++ t := ht
        _ = reg ++ ([c] ++ t) := by rw [List.append_assoc]

/-- Every batch entry's alias is the index of its command in the final
registry: aliases are stable and determined by first registration. -/
lemma run_generate_aliases_alias (cs : List String) :
    ∀ reg e, e ∈ run_generate_aliases reg cs →
      e.1 ∈ register_all reg cs ∧
      e.2.1 = "stim" ++ toString (pyListIndex e.1 (register_all reg cs)) := by
  induction cs with
  | nil => intro reg e he; simp [run_generate_aliases] at he
  | cons c cs ih =>
    intro reg e he
    rw [run_generate_aliases] at he
    have hreg : register_all reg (c :: cs) =
        register_all (generate_alias reg c).2 cs := rfl
    rcases List.mem_cons.mp he with he1 | he2
    · subst he1
      by_cases h : c ∈ reg
      · have h2 : (generate_alias reg c).2 = reg := by
          rw [generate_alias_mem reg c h]
        have h1 : (generate_alias reg c).1
            = ("stim" ++ toString (pyListIndex c reg), false) := by
          rw [generate_alias_mem reg c h]
        obtain ⟨t, ht⟩ := register_all_extends cs reg
        have hfin : register_all reg (c :: cs) = reg ++ t := by
          rw [hreg, h2, ht]
        constructor
        · rw [hfin]; exact List.mem_append_left _ h
        · show (generate_alias reg c).1.1
            = "stim" ++ toString (pyListIndex c (register_all reg (c :: cs)))
          rw [h1, hfin, pyListIndex_append_of_mem reg t c h]
      · have h2 : (generate_alias reg c).2 = reg ++ [c] := by
          rw [generate_alias_not_mem reg c h]
        have h1 : (generate_alias reg c).1
            = ("stim" ++ toString reg.length, true) := by
          rw [generate_alias_not_mem reg c h]
        obtain ⟨t, ht⟩ := register_all_extends cs (reg ++ [c])
        have hfin : register_all reg (c :: cs) = (reg ++ [c]) ++ t := by
          rw [hreg, h2, ht]
        have hcmem : c ∈ reg ++ [c] := List.mem_append_right _ (by simp)
        constructor
        · rw [hfin]; exact List.mem_append_left _ hcmem
        · show (generate_alias reg c).1.1
            = "stim" ++ toString (pyListIndex c (register_all reg (c :: cs)))
          rw [h1, hfin, pyListIndex_append_of_mem (reg ++ [c]) t c hcmem,
            pyListIndex_self_append reg c h]
    · rw [hreg]
      exact ih _ e he2

/-- Exactly one batch entry registers a given command anew: zero when it
was already in the registry, one when it occurs in the batch. -/
lemma run_generate_aliases_count (cs : List String) :
    ∀ reg s, (run_generate_aliases reg cs).countP (isNewFor s) =
      if s ∈ reg then 0 else if s ∈ cs then 1 else 0 := by
  induction cs with
  | nil => intro reg s; simp [run_generate_aliases]
  | cons c cs ih =>
    intro reg s
    rw [run_generate_aliases, List.countP_cons]
    by_cases hc : c ∈ reg
    · rw [generate_alias_mem reg c hc]
      have hent : isNewFor s (c, "stim" ++ toString (pyListIndex c reg), false)
          = false := by simp [isNewFor]
      rw [hent, ih reg s]
      by_cases hs : s ∈ reg
      · simp [hs]
      · have hsc : s ≠ c := fun e => hs (e ▸ hc)
        simp [hs, List.mem_cons, hsc]
    · rw [generate_alias_not_mem reg c hc, ih (reg ++ [c]) s]
      by_cases hs : s = c
      · subst hs
        have hent : isNewFor s (s, "stim" ++ toString reg.length, true)
            = true := by simp [isNewFor]
        simp [hent, hc, List.mem_append]
      · have hcs : ¬(c = s) := fun e => hs e.symm
        have hent : isNewFor s (c, "stim" ++ toString reg.length, true)
            = false := by simp [isNewFor, hcs]
        have hmem : (s ∈ reg ++ [c]) ↔ s ∈ reg := by
          simp [List.mem_append, hs]
        rw [hent]
        by_cases hr : s ∈ reg
        · simp [hr, hmem.mpr hr]
        · have hnm : s ∉ reg ++ [c] := fun h => hr (hmem.mp h)
          simp [hr, hnm, List.mem_cons, hs]

/-! ## Shared lemmas about the command builder -/

/-- Unfolding lemma: a successful build yields exactly the load command,
compute command, and warnings described by the derived views. -/
lemma build_report_cfg_ok (ctx : JoulesCtx) (reg : List String)
    (r : PowerReport) (res : CommandConfig × List String × List String)
    (h : build_report_cfg ctx reg r = .ok res) :
    res.1.read_stim_cmd = load_cmd_of ctx reg r ∧
    res.1.compute_power_cmd = compute_cmd_of ctx reg r ∧
    res.2.1 = report_warnings ctx r ∧
    res.2.2 = (generate_alias reg (read_stim_cmd_of ctx r)).2 := by
  simp only [build_report_cfg] at h
  by_cases hp : plot_profile_family r ∧ time_based_analysis r = false
  · rw [if_pos hp] at h; exact absurd h (by simp)
  · rw [if_neg hp] at h
    by_cases hw : write_profile_family r ∧ time_based_analysis r = false
    · rw [if_pos hw] at h; exact absurd h (by simp)
    · rw [if_neg hw] at h
      cases h
      exact ⟨rfl, rfl, rfl, rfl⟩

/-- A successful build is possible whenever no profile-family format is
requested without segmentation; in particular any build with
`time_based_analysis` true succeeds. -/
lemma build_report_cfg_ok_of_tba (ctx : JoulesCtx) (reg : List String)
    (r : PowerReport) (htba : time_based_analysis r = true) :
    (build_report_cfg ctx reg r).isOk = true := by
  simp only [build_report_cfg]
  have hp : ¬(plot_profile_family r ∧ time_based_analysis r = false) := by
    rintro ⟨_, hf⟩; rw [htba] at hf; exact absurd hf (by simp)
  have hw : ¬(write_profile_family r ∧ time_based_analysis r = false) := by
    rintro ⟨_, hf⟩; rw [htba] at hf; exact absurd hf (by simp)
  rw [if_neg hp, if_neg hw]
  rfl

/-- Requesting a profile-family output with every segmentation field
unset hits one of the two `logger.error`/`return False` paths. -/
lemma build_profile_noseg_error (ctx : JoulesCtx) (reg : List String)
    (r : PowerReport)
    (h1 : r.interval_size = none) (h2 : r.interval_list = none)
    (h3 : r.num_toggles = none) (h4 : r.frame_count = none)
    (hf : plot_profile_family r ∨ write_profile_family r) :
    build_report_cfg ctx reg r =
      .error (if plot_profile_family r then plotProfileError
        else writeProfileError) := by
  have htba : time_based_analysis r = false := by
    simp [time_based_analysis, h1, h2, h3, h4]
  by_cases hp : plot_profile_family r
  · simp [build_report_cfg, htba, hp]
  · have hw : write_profile_family r := hf.resolve_left hp
    simp [build_report_cfg, htba, hp, hw]

/-- Splitting the request loop at a batch decomposition point. -/
lemma configs_to_cmds_go_append (ctx : JoulesCtx) (pre : List PowerReport) :
    ∀ reg rest, configs_to_cmds_go ctx reg (pre ++ rest) =
      match configs_to_cmds_go ctx reg pre with
      | .error e => .error e
      | .ok (cfgs, reg2) =>
        match configs_to_cmds_go ctx reg2 rest with
        | .error e => .error e
        | .ok (cfgs2, reg3) => .ok (cfgs ++ cfgs2, reg3) := by
  induction pre with
  | nil =>
    intro reg rest
    rcases h : configs_to_cmds_go ctx reg rest with e | ⟨cfgs2, reg3⟩ <;>
      simp [configs_to_cmds_go, h]
  | cons r rs ih =>
    intro reg rest
    rcases hb : build_report_cfg ctx reg r with e | ⟨cfg, w, reg'⟩
    · simp [configs_to_cmds_go, hb]
    · rcases h1 : configs_to_cmds_go ctx reg' rs with e1 | ⟨c1, r1⟩
      · simp [configs_to_cmds_go, hb, ih reg' rest, h1]
      · rcases h2 : configs_to_cmds_go ctx r1 rest with e2 | ⟨c2, r2⟩ <;>
          simp [configs_to_cmds_go, hb, ih reg' rest, h1, h2]

/-! ## Claim C1 -/

/-- C1: for every synthesis session, identical rendered stimulus-load
command strings get the same alias and exactly one load/compute pair
across the whole batch; aliases are assigned in strictly increasing
first-registration order (a new command's alias index is the number of
previously registered commands), and re-querying an already-registered
command returns its existing alias with `is_new = false` without
changing the registry. The final conjunct ties the flag to the builder:
a config's compute command is emitted exactly when the request's load
command was not already registered. -/
theorem claim_generate_alias_dedup (reg : List String) (c : String)
    (cs : List String) (ctx : JoulesCtx) (r : PowerReport) :
    (c ∉ reg → generate_alias reg c
      = (("stim" ++ toString reg.length, true), reg ++ [c])) ∧
    (c ∈ reg → generate_alias reg c
      = (("stim" ++ toString (pyListIndex c reg), false), reg)) ∧
    (c ∉ reg → generate_alias (generate_alias reg c).2 c
      = (((generate_alias reg c).1.1, false), (generate_alias reg c).2)) ∧
    (∀ e e', e ∈ run_generate_aliases reg cs →
      e' ∈ run_generate_aliases reg cs → e.1 = e'.1 → e.2.1 = e'.2.1) ∧
    ((run_generate_aliases [] cs).countP (isNewFor c)
      = if c ∈ cs then 1 else 0) ∧
    (∀ res, build_report_cfg ctx reg r = .ok res →
      res.1.compute_power_cmd.isSome
        = !(decide (read_stim_cmd_of ctx r ∈ reg))) := by
  refine ⟨generate_alias_not_mem reg c, generate_alias_mem reg c, ?_, ?_, ?_, ?_⟩
  · intro h
    have h2 : (generate_alias reg c).2 = reg ++ [c] := by
      rw [generate_alias_not_mem reg c h]
    have h1 : (generate_alias reg c).1.1 = "stim" ++ toString reg.length := by
      rw [generate_alias_not_mem reg c h]
    have hm : c ∈ reg ++ [c] := List.mem_append_right _ (by simp)
    rw [h2, generate_alias_mem _ c hm, pyListIndex_self_append reg c h, h1]
  · intro e e' he he' heq
    obtain ⟨_, ha⟩ := run_generate_aliases_alias cs reg e he
    obtain ⟨_, ha'⟩ := run_generate_aliases_alias cs reg e' he'
    rw [ha, ha', heq]
  · rw [run_generate_aliases_count cs [] c]; simp
  · intro res h
    obtain ⟨_, hc, _, _⟩ := build_report_cfg_ok ctx reg r res h
    rw [hc]
    unfold compute_cmd_of new_stim_of
    by_cases hm : read_stim_cmd_of ctx r ∈ reg
    · rw [generate_alias_mem _ _ hm]; simp [hm]
    · rw [generate_alias_not_mem _ _ hm]; simp [hm]

/-- Witness for C1 at concrete inputs: a fresh registration, the shared
alias of the duplicated command `"x"`, and the batch count of one. -/
theorem claim_generate_alias_dedup_witness :
    generate_alias ["a"] "b"
      = (("stim" ++ toString (["a"] : List String).length, true),
          ["a"] ++ ["b"]) ∧
    (("x", ("stim0", true)) : String × String × Bool).2.1
      = (("x", ("stim0", false)) : String × String × Bool).2.1 ∧
    (run_generate_aliases [] ["x", "y", "x"]).countP (isNewFor "x")
      = (if "x" ∈ (["x", "y", "x"] : List String) then 1 else 0) := by
  have h := claim_generate_alias_dedup ["a"] "b" ["x", "y", "x"] ctx0 rBase
  have h2 := claim_generate_alias_dedup [] "x" ["x", "y", "x"] ctx0 rBase
  refine ⟨h.1 (by decide), ?_, h2.2.2.2.2.1⟩
  exact h2.2.2.2.1 ("x", ("stim0", true)) ("x", ("stim0", false))
    (by decide) (by decide) rfl

/-! ## Claim C2 (corrected) -/

/-- C2, counterexample to the claim as stated: with a batch of three
requests whose second asks for `profile` output with no segmentation
field, `configs_to_cmds` hits the `return False` path and produces no
result at all — the first and third (sibling) requests do not process,
contradicting the claimed "all other requests in the batch still
process". -/
theorem claim_profile_noseg_counterexample :
    configs_to_cmds ctx0 [rBase, rProf, rBase] = .error plotProfileError := by
  rfl

/-- C2, amended: a request with a profile-family output format and no
time-segmentation field set fails with the reported configuration error
and emits zero commands (profile commands included) — and the failure
aborts the whole `configs_to_cmds` run, so sibling requests are
discarded rather than processed. -/
theorem claim_profile_noseg_fails (ctx : JoulesCtx) (reg : List String)
    (r : PowerReport)
    (h1 : r.interval_size = none) (h2 : r.interval_list = none)
    (h3 : r.num_toggles = none) (h4 : r.frame_count = none)
    (hf : plot_profile_family r ∨ write_profile_family r) :
    (∃ e, build_report_cfg ctx reg r = .error e) ∧
    (build_report_cfg ctx reg r).isOk = false ∧
    (∀ pre post, (configs_to_cmds_go ctx reg pre).isOk = true →
      ∃ e, configs_to_cmds_go ctx reg (pre ++ r :: post) = .error e) := by
  have herr := build_profile_noseg_error ctx reg r h1 h2 h3 h4 hf
  refine ⟨⟨_, herr⟩, by rw [herr]; rfl, ?_⟩
  intro pre post hok
  rcases hgo : configs_to_cmds_go ctx reg pre with e | ⟨cfgs, reg2⟩
  · rw [hgo] at hok; exact absurd hok (by simp [Except.isOk, Except.toBool])
  · have herr2 := build_profile_noseg_error ctx reg2 r h1 h2 h3 h4 hf
    refine ⟨if plot_profile_family r then plotProfileError
      else writeProfileError, ?_⟩
    rw [configs_to_cmds_go_append ctx pre reg (r :: post), hgo]
    have hstep : configs_to_cmds_go ctx reg2 (r :: post)
        = .error (if plot_profile_family r then plotProfileError
          else writeProfileError) := by
      show (match build_report_cfg ctx reg2 r with
        | Except.error e => Except.error e
        | Except.ok (cfg, _, reg2a) =>
          match configs_to_cmds_go ctx reg2a post with
          | Except.error e => Except.error e
          | Except.ok (cfgs2, regF) => Except.ok (cfg :: cfgs2, regF)) = _
      rw [herr2]
    show (match configs_to_cmds_go ctx reg2 (r :: post) with
      | Except.error e => Except.error e
      | Except.ok (cfgs2, reg3) => Except.ok (cfgs ++ cfgs2, reg3)) = _
    rw [hstep]

/-- Witness for C2 at a concrete profile-without-segmentation request
inside a batch whose prefix succeeds. -/
theorem claim_profile_noseg_fails_witness :
    (∃ e, build_report_cfg ctx0 [] rProf = .error e) ∧
    (build_report_cfg ctx0 [] rProf).isOk = false ∧
    (∃ e, configs_to_cmds_go ctx0 [] ([rBase] ++ rProf :: [rBase])
      = .error e) := by
  have h := claim_profile_noseg_fails ctx0 [] rProf rfl rfl rfl rfl
    (Or.inl (by decide))
  exact ⟨h.1, h.2.1, h.2.2 [rBase] [rBase] (by decide)⟩

/-! ## Claim C4 (corrected) -/

/-- C4, counterexample to the claim as stated: `rTf` has more than one
time-segmentation field set (`num_toggles = 0` and `frame_count = 5`,
both non-None), so the first field in priority order among the set ones
is `num_toggles` and the claim demands its clause; the code emits the
multiple-segmentation warning but — because the `elif` chain of lines
280-291 tests truthiness, not `is not None` — skips the falsy
`num_toggles` and renders the lower-priority `-frame_count` clause, with
no `-cycles` clause anywhere in the load command. -/
theorem claim_segmentation_priority_counterexample :
    rTf.num_toggles.isSome = true ∧ rTf.frame_count.isSome = true ∧
    multiTimeBasedWarning ∈ report_warnings ctx0 rTf ∧
    seg_clause ctx0 rTf = " -frame_count 5" ∧
    strContainsB " -cycles " (read_stim_cmd_of ctx0 rTf) = false := by
  decide

/-- C4, amended: for every request with more than one time-segmentation
field set, the multiple-segmentation warning is emitted and synthesis
still succeeds (warning, not error), and the first TRUTHY field in
priority order `interval_size > interval_list > num_toggles >
frame_count` is honored while all lower-priority fields are ignored (a
set-but-falsy field is skipped by clause rendering, although it still
counts toward the warning and toward time-based mode). Ignoring is
stated as invariance of the rendered load command under clearing the
lower-priority fields; in particular, with both `interval_size` and
`num_toggles` set, the command carries the interval-size clause and is
identical to the command with `num_toggles` cleared, so no toggle
clause appears. -/
theorem claim_segmentation_priority (ctx : JoulesCtx) (reg : List String)
    (r : PowerReport) (hmulti : 1 < (time_based_flags r).count true) :
    multiTimeBasedWarning ∈ report_warnings ctx r ∧
    (build_report_cfg ctx reg r).isOk = true ∧
    (∀ sz, r.interval_size = some sz →
      read_stim_cmd_of ctx r
        = read_stim_pre ctx r ++ (" -interval_size " ++ toString sz ++ "ns") ∧
      read_stim_cmd_of ctx r = read_stim_cmd_of ctx
        { r with interval_list := none, num_toggles := none,
                 toggle_signal := none, frame_count := none }) ∧
    (r.interval_size = none → truthyStr r.interval_list = true →
      read_stim_cmd_of ctx r
        = read_stim_pre ctx r ++ (" -interval_list " ++ r.interval_list.getD "") ∧
      read_stim_cmd_of ctx r = read_stim_cmd_of ctx
        { r with num_toggles := none, toggle_signal := none,
                 frame_count := none }) ∧
    (r.interval_size = none → truthyStr r.interval_list = false →
      truthyInt r.num_toggles = true →
      read_stim_cmd_of ctx r
        = read_stim_pre ctx r ++ (" -cycles " ++ toString (r.num_toggles.getD 0)
            ++ " " ++ r.toggle_signal.getD (ctx.clock_ports.getD 0 "")) ∧
      read_stim_cmd_of ctx r = read_stim_cmd_of ctx
        { r with frame_count := none }) := by
  have htba : time_based_analysis r = true := by
    cases ha : r.interval_size.isSome <;> cases hb : r.interval_list.isSome <;>
      cases hc : r.num_toggles.isSome <;> cases hd : r.frame_count.isSome <;>
      simp [time_based_flags, time_based_analysis, ha, hb, hc, hd] at hmulti ⊢
  refine ⟨?_, build_report_cfg_ok_of_tba ctx reg r htba, ?_, ?_, ?_⟩
  · simp [report_warnings, hmulti]
  · intro sz hs
    constructor
    · show read_stim_pre ctx r ++ seg_clause ctx r = _
      simp [seg_clause, hs]
    · simp [read_stim_cmd_of, read_stim_pre, seg_clause, hs]
  · intro hs0 hl
    constructor
    · show read_stim_pre ctx r ++ seg_clause ctx r = _
      simp [seg_clause, hs0, hl]
    · simp [read_stim_cmd_of, read_stim_pre, seg_clause, hs0, hl]
  · intro hs0 hl hn
    constructor
    · show read_stim_pre ctx r ++ seg_clause ctx r = _
      simp [seg_clause, hs0, hl, hn]
    · simp [read_stim_cmd_of, read_stim_pre, seg_clause, hs0, hl, hn]

/-- Witness for the amended C4 at two concrete multi-set requests:
`rIv` (interval_size beats num_toggles: interval clause rendered, no
toggle clause) and `rTg` (num_toggles beats frame_count: cycles clause
with the defaulted clock signal, no frame_count clause). -/
theorem claim_segmentation_priority_witness :
    multiTimeBasedWarning ∈ report_warnings ctx0 rIv ∧
    (build_report_cfg ctx0 [] rIv).isOk = true ∧
    read_stim_cmd_of ctx0 rIv
      = read_stim_pre ctx0 rIv
        ++ (" -interval_size " ++ toString (5 : Int) ++ "ns") ∧
    strContainsB " -cycles " (read_stim_cmd_of ctx0 rIv) = false ∧
    read_stim_cmd_of ctx0 rTg
      = read_stim_pre ctx0 rTg ++ (" -cycles " ++ toString (rTg.num_toggles.getD 0)
          ++ " " ++ rTg.toggle_signal.getD (ctx0.clock_ports.getD 0 "")) ∧
    strContainsB " -frame_count " (read_stim_cmd_of ctx0 rTg) = false := by
  have h1 := claim_segmentation_priority ctx0 [] rIv (by decide)
  have h2 := claim_segmentation_priority ctx0 [] rTg (by decide)
  exact ⟨h1.1, h1.2.1, (h1.2.2.1 5 rfl).1, by decide,
    (h2.2.2.2.2 rfl (by decide) (by decide)).1, by decide⟩

/-! ## Claim C7 -/

/-- C7: every successfully processed request's `read_stim_cmd` entry
carries the `dump_frame_info` command keyed to the request's alias and
output stem — appended after the load command when the stimulus is
newly registered, and alone (after the empty string) when the load was
deduplicated away. -/
theorem claim_dump_frame_info_always (ctx : JoulesCtx) (reg : List String)
    (r : PowerReport) (h : (build_report_cfg ctx reg r).isOk = true) :
    ∃ res, build_report_cfg ctx reg r = .ok res ∧
      res.1.read_stim_cmd
        = (if read_stim_cmd_of ctx r ∈ reg then ""
           else read_stim_cmd_of ctx r ++ " -alias " ++ stim_alias_of ctx reg r
             ++ " -append")
          ++ "\ndump_frame_info " ++ stim_alias_of ctx reg r ++ " "
          ++ report_stem_of ctx r := by
  rcases hb : build_report_cfg ctx reg r with e | res
  · rw [hb] at h; exact absurd h (by simp [Except.isOk, Except.toBool])
  · refine ⟨res, rfl, ?_⟩
    obtain ⟨hl, _, _, _⟩ := build_report_cfg_ok ctx reg r res hb
    rw [hl]
    unfold load_cmd_of new_stim_of stim_alias_of
    by_cases hm : read_stim_cmd_of ctx r ∈ reg
    · rw [generate_alias_mem _ _ hm]; simp [hm]
    · rw [generate_alias_not_mem _ _ hm]; simp [hm]

/-- Witness for C7: the dump command is present both for the fresh
registration (empty registry) and for the duplicate (registry already
holding the rendered load command). -/
theorem claim_dump_frame_info_always_witness :
    (∃ res, build_report_cfg ctx0 [] rBase = .ok res ∧
      res.1.read_stim_cmd
        = (if read_stim_cmd_of ctx0 rBase ∈ ([] : List String) then ""
           else read_stim_cmd_of ctx0 rBase ++ " -alias "
             ++ stim_alias_of ctx0 [] rBase ++ " -append")
          ++ "\ndump_frame_info " ++ stim_alias_of ctx0 [] rBase ++ " "
          ++ report_stem_of ctx0 rBase) ∧
    (∃ res, build_report_cfg ctx0 [read_stim_cmd_of ctx0 rBase] rBase
        = .ok res ∧
      res.1.read_stim_cmd
        = (if read_stim_cmd_of ctx0 rBase ∈ [read_stim_cmd_of ctx0 rBase] then ""
           else read_stim_cmd_of ctx0 rBase ++ " -alias "
             ++ stim_alias_of ctx0 [read_stim_cmd_of ctx0 rBase] rBase
             ++ " -append")
          ++ "\ndump_frame_info "
          ++ stim_alias_of ctx0 [read_stim_cmd_of ctx0 rBase] rBase ++ " "
          ++ report_stem_of ctx0 rBase) :=
  ⟨claim_dump_frame_info_always ctx0 [] rBase (by decide),
   claim_dump_frame_info_always ctx0 [read_stim_cmd_of ctx0 rBase] rBase
     (by decide)⟩

/-! ## Claim C10 -/

/-- C10: a segmentation field that is present but falsy (here
`frame_count = 0`) makes the mode detection (`is not None`) report
time-based analysis — the profile precondition passes and any emitted
compute command is `time_based` — while the truthiness-tested clause
rendering appends no segmentation clause to the load command. -/
theorem claim_falsy_frame_count (ctx : JoulesCtx) (reg : List String)
    (r : PowerReport)
    (h1 : r.interval_size = none) (h2 : r.interval_list = none)
    (h3 : r.num_toggles = none) (h4 : r.frame_count = some 0)
    (_h5 : r.output_formats = some ["profile"]) :
    seg_clause ctx r = "" ∧
    read_stim_cmd_of ctx r = read_stim_pre ctx r ∧
    time_based_analysis r = true ∧
    (build_report_cfg ctx reg r).isOk = true ∧
    compute_cmd_of ctx reg r
      = (if new_stim_of ctx reg r then
          some ("compute_power -mode time_based -stim "
            ++ stim_alias_of ctx reg r ++ " -append")
        else none) := by
  have htba : time_based_analysis r = true := by
    simp [time_based_analysis, h4]
  have hseg : seg_clause ctx r = "" := by
    simp [seg_clause, truthyStr, truthyInt, h1, h2, h3, h4]
  refine ⟨hseg, ?_, htba, build_report_cfg_ok_of_tba ctx reg r htba, ?_⟩
  · show read_stim_pre ctx r ++ seg_clause ctx r = read_stim_pre ctx r
    rw [hseg]
    exact String.append_empty _
  · simp [compute_cmd_of, htba]

/-- Witness for C10 at the concrete request `rFz`
(`frame_count = 0`, `output_formats = ["profile"]`). -/
theorem claim_falsy_frame_count_witness :
    seg_clause ctx0 rFz = "" ∧
    time_based_analysis rFz = true ∧
    (build_report_cfg ctx0 [] rFz).isOk = true := by
  have h := claim_falsy_frame_count ctx0 [] rFz rfl rfl rfl rfl rfl
  exact ⟨h.1, h.2.2.1, h.2.2.2.1⟩

/-! ## Claim C3 (code bug) -/

/-- C3 (code-bug evidence): on the synthetic report of the claim — one
category row, one Subtotal row, one Percentage row — the embedded
`parse_table` returns TWO row records and `subtotal = none`: because
`ROW_RE` is tried first and its category class matches the word
`Subtotal`, the Subtotal line is consumed as an ordinary category row
and the dedicated `SUBTOTAL_RE` branch is unreachable. The numeric
fields of the `top` row and of the Percentage record do carry exactly
the literal input numbers, so the divergence is confined to the
Subtotal handling. -/
theorem claim_flat_table_roundtrip :
    parse_table c3_lines = some c3_result ∧
    c3_result.rows.length = 2 ∧
    c3_result.rows.map (fun q => q.category) = ["top", "Subtotal"] ∧
    c3_result.subtotal = none ∧
    c3_result.percentage.isSome = true ∧
    ((⟨10, -1⟩ : PyFloat).isIntVal 1 && (⟨20, -1⟩ : PyFloat).isIntVal 2
      && (⟨30, -1⟩ : PyFloat).isIntVal 3 && (⟨60, -1⟩ : PyFloat).isIntVal 6
      && (⟨500, -1⟩ : PyFloat).isIntVal 50) = true ∧
    (c3_result.percentage.map (fun p =>
      p.leakage.isIntVal 10 && p.internal.isIntVal 20
        && p.switching.isIntVal 30 && p.total.isIntVal 60
        && p.row_pct.isIntVal 100)) = some true := by
  decide

/-! ## Claim C5 -/

/-- C5: NA markers in a PPA numeric field parse to an absent value —
distinguishable from a literal `0`, which parses to numeric zero — and
rows whose matched category starts with `category` (case-insensitive)
are skipped as headers. The concrete table drives both paths through
`parse_ppa_table`. -/
theorem claim_ppa_na_and_header (s : String)
    (hna : pyLower (pyStrip s) ∈ (["n/a", "na", "-", "n\\a"] : List String)) :
    num_or_none (some s) = none ∧
    (∀ ln d c0, reMatch PPA_ROW_RE ln = some d →
      capGet d "category" = some c0 →
      pyStartsWith (pyLower (pyStrip c0)) "category" = true →
      parse_ppa_line ln = none) ∧
    parse_ppa_table c5_lines = [c5_row_na, c5_row_zero] ∧
    c5_row_na.bits = none ∧
    c5_row_zero.bits = some ⟨0, 0⟩ ∧
    (⟨0, 0⟩ : PyFloat).isIntVal 0 = true := by
  refine ⟨?_, ?_, by decide, by decide, by decide, by decide⟩
  · simp [num_or_none, hna]
  · intro ln d c0 hm hc hcat
    by_cases hsep : isSepLine ln = true
    · simp [parse_ppa_line, hsep]
    · simp [parse_ppa_line, hsep, hm, hc, hcat]

/-- Witness for C5: the NA marker `N/A`, and the header row of
`c5_lines` being skipped. -/
theorem claim_ppa_na_and_header_witness :
    num_or_none (some "N/A") = none ∧
    parse_ppa_line "Category 0 1 2 3 4 5 6 7 path\n" = none := by
  have h := claim_ppa_na_and_header "N/A" (by decide)
  refine ⟨h.1, ?_⟩
  exact h.2.1 "Category 0 1 2 3 4 5 6 7 path\n" c5_hdr_caps "Category"
    (by decide) (by decide) (by decide)

/-! ## Claim C6 (spec-modelled) -/

/-- C6 (spec-modelled: `PowerParser.profiledata_to_df` is imported but
not defined under the sources in review): a header power unit of `W`
maps the datum `0.002` to canonical `2.0` milliwatts, and a header time
unit of `us` maps `1.0` to canonical `1000` nanoseconds after rounding
to the nearest integer nanosecond. -/
theorem claim_profile_unit_normalization :
    pyFloatOfString "0.002" = some ⟨2, -3⟩ ∧
    profile_power_to_mw "W" ⟨2, -3⟩ = some ⟨2, 0⟩ ∧
    (⟨2, 0⟩ : PyFloat).isIntVal 2 = true ∧
    pyFloatOfString "1.0" = some ⟨10, -1⟩ ∧
    profile_time_to_ns "us" ⟨10, -1⟩ = some 1000 := by
  decide

/-! ## Claim C9 -/

/-- C9: the CLI parser dispatch lowercases the source path; any path
containing `ppa` (case-insensitive) selects the PPA parser (so the
hierarchical parser is never reached, even when `hier` also occurs),
and a path containing neither substring falls through to the flat
parser. -/
theorem claim_cli_dispatch (src : String) :
    (strContainsB "ppa" (pyLower src) = true → main_select src = .ppa) ∧
    (strContainsB "ppa" (pyLower src) = true → main_select src ≠ .hier) ∧
    (strContainsB "ppa" (pyLower src) = false →
      strContainsB "hier" (pyLower src) = false →
      main_select src = .flat) := by
  refine ⟨?_, ?_, ?_⟩
  · intro h; simp [main_select, h]
  · intro h; simp [main_select, h]
  · intro h1 h2; simp [main_select, h1, h2]

/-- Witness for C9: a path containing both `ppa` and `hier` in mixed
case dispatches to the PPA parser; a plain power-report path falls
through to the flat parser. -/
theorem claim_cli_dispatch_witness :
    main_select "out.PpA_HiEr.rpt" = .ppa ∧
    main_select "out.PpA_HiEr.rpt" ≠ .hier ∧
    main_select "reports/output.power.rpt" = .flat := by
  have h1 := claim_cli_dispatch "out.PpA_HiEr.rpt"
  have h2 := claim_cli_dispatch "reports/output.power.rpt"
  exact ⟨h1.1 (by decide), h1.2.1 (by decide), h2.2.2 (by decide) (by decide)⟩

/-! ## Claim C8 -/

/-- Helper: how `parse_power` treats one report command naming an
existing absolute profile output — the parse/export outcome decides
between a success record and a logged error. -/
lemma parse_power_cmd_profile (run_dir : String) (ex : String → Bool)
    (f : String → Except String Unit) (cmd p : String)
    (hout : out_path_of_cmd cmd = some p)
    (habs : pyStartsWith p "/" = true)
    (hprof : strContainsB ".profile" (pyBasename p) = true)
    (hex : ex (p ++ ".data") = true) :
    parse_power_cmd run_dir ex f cmd =
      match f (p ++ ".data") with
      | .ok _ => [.parsed (p ++ ".data")
          (pyParent (p ++ ".data") ++ "/parsed/" ++ pyBasename (p ++ ".data")
            ++ ".csv.gz")]
      | .error e => [.errorLogged (p ++ ".data") e] := by
  unfold parse_power_cmd
  rw [hout]
  simp only [habs, hprof, hex, if_true, Bool.not_true, Bool.false_eq_true,
    if_false]

/-- C8: a parse/export failure on one report file is caught at per-file
granularity — given three profile outputs where the second raises,
`parse_power` still produces success records for the first and third,
logs the error with the failing file, and returns `true`. -/
theorem claim_parse_power_isolation (ex : String → Bool)
    (f : String → Except String Unit) (e : String)
    (hex1 : ex "/r/a.profile.data" = true)
    (hex2 : ex "/r/b.profile.data" = true)
    (hex3 : ex "/r/c.profile.data" = true)
    (hf1 : f "/r/a.profile.data" = .ok ())
    (hf2 : f "/r/b.profile.data" = .error e)
    (hf3 : f "/r/c.profile.data" = .ok ()) :
    parse_power "/rd" ex f [c8_cfg] =
      ([.parsed "/r/a.profile.data" "/r/parsed/a.profile.data.csv.gz",
        .errorLogged "/r/b.profile.data" e,
        .parsed "/r/c.profile.data" "/r/parsed/c.profile.data.csv.gz"],
       true) := by
  have e1 : parse_power_cmd "/rd" ex f
      "write_power_profile -stims stim0 -out /r/a.profile"
      = [.parsed "/r/a.profile.data" "/r/parsed/a.profile.data.csv.gz"] := by
    rw [parse_power_cmd_profile "/rd" ex f _ "/r/a.profile"
      (by decide) (by decide) (by decide) hex1,
      show ("/r/a.profile" ++ ".data" : String) = "/r/a.profile.data" from rfl,
      hf1]
    decide
  have e2 : parse_power_cmd "/rd" ex f
      "write_power_profile -stims stim0 -out /r/b.profile"
      = [.errorLogged "/r/b.profile.data" e] := by
    rw [parse_power_cmd_profile "/rd" ex f _ "/r/b.profile"
      (by decide) (by decide) (by decide) hex2,
      show ("/r/b.profile" ++ ".data" : String) = "/r/b.profile.data" from rfl,
      hf2]
  have e3 : parse_power_cmd "/rd" ex f
      "write_power_profile -stims stim0 -out /r/c.profile"
      = [.parsed "/r/c.profile.data" "/r/parsed/c.profile.data.csv.gz"] := by
    rw [parse_power_cmd_profile "/rd" ex f _ "/r/c.profile"
      (by decide) (by decide) (by decide) hex3,
      show ("/r/c.profile" ++ ".data" : String) = "/r/c.profile.data" from rfl,
      hf3]
    decide
  simp [parse_power, c8_cfg, e1, e2, e3]

/-- Witness for C8 with the concrete oracle `c8_oracle`, which fails
exactly on the second profile data file. -/
theorem claim_parse_power_isolation_witness :
    parse_power "/rd" (fun _ => true) c8_oracle [c8_cfg] =
      ([.parsed "/r/a.profile.data" "/r/parsed/a.profile.data.csv.gz",
        .errorLogged "/r/b.profile.data" "malformed report",
        .parsed "/r/c.profile.data" "/r/parsed/c.profile.data.csv.gz"],
       true) :=
  claim_parse_power_isolation (fun _ => true) c8_oracle "malformed report"
    rfl rfl rfl rfl rfl rfl

end Joules
